import Mathlib

/-!
# Verification of the sir-robin code-jam cog

Shallow embedding of `bot/exts/code_jams/_cog.py` and
`bot/exts/code_jams/_views.py`.  Strings that undergo Python casing
operations are represented as lists of code points (`List Nat`), with the
casing primitives modelled for the ASCII range (the only range exercised by
Discord channel slugs and the roster's leader column).  Python `str`
values that are only compared or stored are kept as Lean `String`s.

Each external call (management API, chat platform) is a parameter of the
embedded operation: the operation receives the call's result and returns
the ordered list of observable effects (messages sent, log lines, and the
state mutations actually performed).  A failed API call performs no
mutation, so only successful calls contribute mutation effects.
-/

/-- Python `str.upper` on one ASCII code point: lowercase letters map to
uppercase, everything else is unchanged. -/
def pyToUpperCode (c : Nat) : Nat :=
  if 97 ≤ c ∧ c ≤ 122 then c - 32 else c

/-- Python `str.lower` on one ASCII code point. -/
def pyToLowerCode (c : Nat) : Nat :=
  if 65 ≤ c ∧ c ≤ 90 then c + 32 else c

/-- Whether an ASCII code point is a cased character (a letter). -/
def pyIsCased (c : Nat) : Bool :=
  decide ((65 ≤ c ∧ c ≤ 90) ∨ (97 ≤ c ∧ c ≤ 122))

/-- Python `str.title`, one pass over the code points: a cased character
that follows a non-cased character starts a word and is uppercased, every
other cased character is lowercased.  The accumulator records whether the
previous character was cased. -/
def pyTitleAux : Bool → List Nat → List Nat
  | _, [] => []
  | prev_cased, c :: rest =>
    (if prev_cased then pyToLowerCode c else pyToUpperCode c) ::
      pyTitleAux (pyIsCased c) rest

/-- Python `str.title` (word starts at the beginning of the string or after
a non-cased character). -/
def pyTitle (s : List Nat) : List Nat := pyTitleAux false s

/-- Python `str.replace("-", " ")`: code point 45 (hyphen) becomes 32
(space). -/
def pyReplaceHyphenSpace (s : List Nat) : List Nat :=
  s.map (fun c => if c = 45 then 32 else c)

/-- Embeds `CodeJams.team_name` (`_cog.py` lines 317-320):
`channel.name.replace("-", " ").title()`. -/
def team_name (channel_name : List Nat) : List Nat :=
  pyTitle (pyReplaceHyphenSpace channel_name)

/-- Code points of a string literal, for readable concrete examples. -/
def codes (s : String) : List Nat := s.data.map Char.toNat

/-- One data row of the roster CSV, as read by `csv.DictReader`
(`_cog.py` lines 64-73): the "Team Name" column, the
"Team Member Discord ID" column already converted by `int(...)`, and the
raw "Team Leader" column as code points (it undergoes `.upper()`). -/
structure RosterRow where
  row_team_name : String
  member_id : Nat
  team_leader : List Nat
  deriving DecidableEq, Repr

/-- One entry of a team's member list:
`{"member": member, "is_leader": row["Team Leader"].upper() == "Y"}`
(line 73).  A guild member is identified by id. -/
structure TeamMemberEntry where
  member : Nat
  is_leader : Bool
  deriving DecidableEq, Repr

/-- The leader flag of a row: `row["Team Leader"].upper() == "Y"`
(line 73); 89 is the code point of "Y". -/
def leader_flag (v : List Nat) : Bool := v.map pyToUpperCode == [89]

/-- Models `teams[name].append(entry)` on a `defaultdict(list)` (line 73),
modelled on an insertion-ordered association list: an existing key has the
entry appended, a missing key is created at the end with a singleton
list. -/
def appendToTeam :
    List (String × List TeamMemberEntry) → String → TeamMemberEntry →
      List (String × List TeamMemberEntry)
  | [], name, entry => [(name, [entry])]
  | (k, l) :: rest, name, entry =>
    if k = name then (k, l ++ [entry]) :: rest
    else (k, l) :: appendToTeam rest name entry

/-- The row loop of `CodeJams.create` (`_cog.py` lines 66-73):
`get_or_fetch_member` is the `resolve` parameter; a row whose member id
does not resolve is skipped (`continue`), otherwise the entry is appended
to the row's team. -/
def createTeamsLoop (resolve : Nat → Option Nat) :
    List RosterRow → List (String × List TeamMemberEntry) →
      List (String × List TeamMemberEntry)
  | [], teams => teams
  | row :: rest, teams =>
    match resolve row.member_id with
    | none => createTeamsLoop resolve rest teams
    | some member =>
      createTeamsLoop resolve rest
        (appendToTeam teams row.row_team_name ⟨member, leader_flag row.team_leader⟩)

/-- The roster-parsing part of `CodeJams.create` (lines 63-73), starting
from the empty `defaultdict(list)`. -/
def create_teams (resolve : Nat → Option Nat) (rows : List RosterRow) :
    List (String × List TeamMemberEntry) :=
  createTeamsLoop resolve rows []

/-- Concrete roster for the parsing example: team A with members 1
(leader, flag "y") and 2, team B with member 3, and a row for team C
whose member id 4 does not resolve. -/
def exampleRows : List RosterRow :=
  [⟨"A", 1, codes "y"⟩, ⟨"A", 2, codes "N"⟩, ⟨"B", 3, codes "N"⟩,
   ⟨"C", 4, codes "Y"⟩]

/-- Concrete member resolution for the parsing example: id 4 is unknown,
every other id n resolves to member n + 100. -/
def exampleResolve : Nat → Option Nat :=
  fun n => if n = 4 then none else some (n + 100)

/-- The mutable state of a confirmation view
(`JamCreationConfirmation` and `JamEndConfirmation` in `_views.py` are
identical in this respect): the two buttons' labels and disabled flags,
whether `self.stop()` has run, how many times the registered callback has
been invoked, and the interaction responses sent so far.  The
`edit_message(view=self)` calls re-render the labels and disabled flags
already held in this state. -/
structure ViewState where
  confirm_label : String
  cancel_label : String
  confirm_disabled : Bool
  cancel_disabled : Bool
  stopped : Bool
  callback_calls : Nat
  responses : List String
  deriving DecidableEq, Repr

/-- A freshly constructed confirmation view: labels from the
`discord.ui.button` decorators, nothing disabled, not stopped, callback
never invoked. -/
def initialViewState : ViewState :=
  ⟨"Confirm", "Cancel", false, false, false, 0, []⟩

/-- The two buttons of a confirmation view. -/
inductive ViewBtn where
  | confirm
  | cancel
  deriving DecidableEq, Repr

/-- The rejection notice sent by `interaction_check`
(`_views.py` lines 127-135 and 169-177). -/
def rejectionNotice : String :=
  ":x: You can\x27t interact with someone else\x27s response. Please run the command yourself!"

/-- The `confirm` button handler (`_views.py` lines 118-125 and 160-167):
relabel the button "Confirmed", disable both buttons, edit the message,
stop the view, then invoke the registered callback. -/
def confirmPressed (s : ViewState) : ViewState :=
  { s with confirm_label := "Confirmed", confirm_disabled := true,
           cancel_disabled := true, stopped := true,
           callback_calls := s.callback_calls + 1 }

/-- The `cancel` button handler (`_views.py` lines 110-116 and 152-158):
relabel the button "Cancelled", disable both buttons, edit the message,
stop the view; the callback is not invoked. -/
def cancelPressed (s : ViewState) : ViewState :=
  { s with cancel_label := "Cancelled", cancel_disabled := true,
           confirm_disabled := true, stopped := true }

/-- Dispatch of one button interaction on a confirmation view.  The
authorization check is `interaction_check` from the source
(`_views.py` lines 127-135 and 169-177): a user other than the original
author receives the rejection notice and no handler runs.  The guard on
`stopped` is modelled from the spec: the state machine has no
transitions out of terminal states — the rendering framework stops
dispatching to a view once `stop()` has run and its buttons are
disabled. -/
def onInteraction (original_author : Nat) (s : ViewState) (user : Nat)
    (b : ViewBtn) : ViewState :=
  if s.stopped then s
  else if user ≠ original_author then
    { s with responses := s.responses ++ [rejectionNotice] }
  else
    match b with
    | .confirm => confirmPressed s
    | .cancel => cancelPressed s

/-- A membership entry of a team record held by the management API:
`{"user_id": ..., "is_leader": ...}`. -/
structure TeamUser where
  user_id : Nat
  is_leader : Bool
  deriving DecidableEq, Repr

/-- A team record held by the management API, with the fields
`CodeJams.move` and `CodeJams.remove` read. -/
structure TeamRec where
  id : Nat
  name : String
  discord_role_id : Nat
  users : List TeamUser
  deriving DecidableEq, Repr

/-- The response of `GET users/{id}/current_team`: the team record and
the user id the API knows the member by. -/
structure CurrentTeamResp where
  team : TeamRec
  user_id : Nat
  deriving DecidableEq, Repr

/-- The result of one management-API call: the decoded body, or the HTTP
status of a `ResponseCodeError`. -/
inductive ApiResult (α : Type) where
  | ok (val : α)
  | err (status : Nat)
  deriving DecidableEq, Repr

/-- Whether an API call failed. -/
def ApiResult.isErr {α : Type} : ApiResult α → Bool
  | .ok _ => false
  | .err _ => true

/-- A guild role, as returned by `guild.get_role`. -/
structure RoleObj where
  id : Nat
  name : String
  deriving DecidableEq, Repr

/-- A guild category with its channels (channels by id). -/
structure CategoryObj where
  id : Nat
  name : String
  channels : List Nat
  deriving DecidableEq, Repr

/-- One observable step of a command flow, in execution order.  API and
role effects record only mutations that actually happened: a call that
raised `ResponseCodeError` mutated nothing. -/
inductive Effect where
  | send (msg : String)
  | logError (msg : String)
  | logInfo (msg : String)
  | apiDeleteMembership (team_id user_id : Nat)
  | apiPostMembership (team_id user_id : Nat) (is_leader : Bool)
  | removeRole (user_id role_id : Nat)
  | addRole (user_id role_id : Nat)
  | pasteDetails (cats : List CategoryObj) (roles : List RoleObj)
  | presentConfirmUI (url : String)
  | runDeletionFlow (cats : List CategoryObj) (roles : List RoleObj)
  deriving DecidableEq, Repr

/-- Whether an effect mutates chat-platform or management-API state
(anything that is not a message or a log line). -/
def Effect.isMutation : Effect → Bool
  | .apiDeleteMembership _ _ => true
  | .apiPostMembership _ _ _ => true
  | .removeRole _ _ => true
  | .addRole _ _ => true
  | .pasteDetails _ _ => false
  | .presentConfirmUI _ => false
  | .runDeletionFlow _ _ => true
  | .send _ => false
  | .logError _ => false
  | .logInfo _ => false

/-- Whether a flow produced only reports (no mutation effect). -/
def onlyObservations (l : List Effect) : Bool :=
  l.all (fun e => ! e.isMutation)

/-- Whether a flow opens with a message to the operator. -/
def startsWithSend : List Effect → Bool
  | Effect.send _ :: _ => true
  | _ => false

/-- Discord mention of a member id. -/
def mention (member : Nat) : String := "<@" ++ toString member ++ ">"

/-- Message constants of `_cog.py`, verbatim. -/
def msgGenericFailure : String :=
  "Something went wrong while processing the request! We have notified the team!"

/-- Message of the 404 branch of the current-team lookup (line 187). -/
def msgNotParticipant : String := ":x: It seems like the user is not a participant!"

/-- Message of the 404 branch of the membership deletion (lines 200, 268). -/
def msgTeamOrUserNotFound : String := ":x: Team or user could not be found!"

/-- Message of the 400 branch of the membership deletion (lines 202, 270). -/
def msgNotPartOfTeam : String :=
  ":x: The member given is not part of the team! (Might have been removed already)"

/-- Message of the 404 branch of the target-team lookup (line 175). -/
def msgTeamNotInDb (team : String) : String :=
  ":x: Team `" ++ team ++ "` does not exists in the database!"

/-- Message of the 404 branch of the membership insertion (line 228). -/
def msgTeamOrUserNotFoundDot : String := ":x: Team or user could not be found."

/-- Message of the 400 branch of the membership insertion (line 231);
the source reads `team_to_move_in["team"]["name"]` there, which would
raise `KeyError` on the find response — a latent defect outside the
claims; the intended team name is modelled. -/
def msgAlreadyInTeam (member_mention team : String) : String :=
  ":x: user " ++ member_mention ++ " is already in " ++ team

/-- Success message of `CodeJams.move` (lines 241-244). -/
def msgMoveSuccess (member_mention old_team new_team : String) : String :=
  "Success! Participant " ++ member_mention ++ " has been moved from " ++
    old_team ++ " to " ++ new_team

/-- Success message of `CodeJams.remove` (line 281). -/
def msgRemoveSuccess (member_mention team : String) : String :=
  "Successfully removed " ++ member_mention ++ " from team " ++ team

/-- Steps 5-8 of `CodeJams.move` (`_cog.py` lines 212-244): the
membership insertion into the target team with the carried-forward
leader flag, then the target-team role grant and the success report; on
`ResponseCodeError` a report and abort (the earlier role removal is not
rolled back). -/
def movePostPart (member : Nat) (team : CurrentTeamResp)
    (team_to_move_in : TeamRec) (is_leader : Bool) :
    ApiResult Unit → List Effect
  | .err s =>
    if s = 404 then [Effect.send msgTeamOrUserNotFoundDot, Effect.logInfo "response code error"]
    else if s = 400 then [Effect.send (msgAlreadyInTeam (mention member) team_to_move_in.name)]
    else [Effect.send msgGenericFailure, Effect.logError "response code error"]
  | .ok _ =>
    [Effect.apiPostMembership team_to_move_in.id member is_leader,
     Effect.addRole member team_to_move_in.discord_role_id,
     Effect.send (msgMoveSuccess (mention member) team.team.name team_to_move_in.name)]

/-- Embeds `CodeJams.move` (`_cog.py` lines 165-244).  The four
management-API calls are parameters carrying their results in call
order: `GET teams/find`, `GET users/{id}/current_team`,
`DELETE teams/{id}/users/{uid}`, `POST teams/{id}/users/{uid}`.  The
leader flag posted to the target team is computed by the scan of the
former team's membership list (lines 212-217). -/
def move (member : Nat) (new_team_name : String) (find_res : ApiResult TeamRec)
    (current_res : ApiResult CurrentTeamResp) (delete_res : ApiResult Unit)
    (post_res : ApiResult Unit) : List Effect :=
  match find_res with
  | .err s =>
    if s = 404 then [Effect.send (msgTeamNotInDb new_team_name)]
    else [Effect.send msgGenericFailure, Effect.logError "response code error"]
  | .ok team_to_move_in =>
    match current_res with
    | .err s =>
      if s = 404 then [Effect.send msgNotParticipant]
      else [Effect.send msgGenericFailure, Effect.logError "response"]
    | .ok team =>
      match delete_res with
      | .err s =>
        if s = 404 then [Effect.send msgTeamOrUserNotFound]
        else if s = 400 then [Effect.send msgNotPartOfTeam]
        else [Effect.send msgGenericFailure, Effect.logError "response code error"]
      | .ok _ =>
        Effect.apiDeleteMembership team.team.id team.user_id ::
        Effect.removeRole member team.team.discord_role_id ::
        movePostPart member team team_to_move_in
          (team.team.users.any (fun memb => memb.user_id == member && memb.is_leader))
          post_res

/-- Embeds `CodeJams.remove` (`_cog.py` lines 246-281).  `member_roles`
is `member.roles`; `team_leader_role_name` is the `TEAM_LEADER_ROLE_NAME`
constant imported from `_flows` (its value is not under `src/`, so it is
kept abstract).  On success the team role is removed, then every role of
the member named like the team-leader role. -/
def remove (member : Nat) (member_roles : List RoleObj)
    (team_leader_role_name : String) (current_res : ApiResult CurrentTeamResp)
    (delete_res : ApiResult Unit) : List Effect :=
  match current_res with
  | .err s =>
    if s = 404 then [Effect.send msgNotParticipant]
    else [Effect.send msgGenericFailure, Effect.logError "response"]
  | .ok team =>
    match delete_res with
    | .err s =>
      if s = 404 then [Effect.send msgTeamOrUserNotFound]
      else if s = 400 then [Effect.send msgNotPartOfTeam]
      else [Effect.send msgGenericFailure, Effect.logError "response"]
    | .ok _ =>
      Effect.apiDeleteMembership team.team.id team.user_id ::
      Effect.removeRole member team.team.discord_role_id ::
      ((member_roles.filter (fun r => r.name == team_leader_role_name)).map
        (fun r => Effect.removeRole member r.id) ++
       [Effect.send (msgRemoveSuccess (mention member) team.team.name)])

/-- One team entry of the `GET teams?current_jam=true` response, with the
field `jam_roles` reads. -/
structure TeamListing where
  discord_role_id : Nat
  deriving DecidableEq, Repr

/-- Embeds `CodeJams.jam_categories` (`_cog.py` lines 283-286):
guild categories whose name is the reserved jam-category name
(`_creation_utils.CATEGORY_NAME`, not under `src/`, kept abstract). -/
def jam_categories (jam_category_name : String)
    (guild_categories : List CategoryObj) : List CategoryObj :=
  guild_categories.filter (fun c => c.name == jam_category_name)

/-- Embeds `CodeJams.jam_roles` (`_cog.py` lines 288-301): `none` when
the API call itself fails, otherwise the current-jam teams' role ids
resolved against the guild, skipping ids `guild.get_role` does not
know. -/
def jam_roles (resp : ApiResult (List TeamListing))
    (get_role : Nat → Option RoleObj) : Option (List RoleObj) :=
  match resp with
  | .err _ => none
  | .ok raw => some (raw.filterMap (fun t => get_role t.discord_role_id))

/-- How the end command's confirmation view terminated. -/
inductive EndOutcome where
  | confirmed
  | cancelled
  deriving DecidableEq, Repr

/-- Refusal message of `CodeJams.end` (line 110). -/
def msgAlreadyDeleted : String :=
  ":x: The Code Jam channels and roles have already been deleted! "

/-- Closing message of `CodeJams.end` (line 137). -/
def msgJamEnded : String := "Code Jam has officially ended! :sunrise:"

/-- Fallback shown when the paste service returned no URL (line 125). -/
def msgPasteFailed : String :=
  "**Unable to send deletion details to the pasting service.**"

/-- Embeds `CodeJams.end` (`_cog.py` lines 97-137); renamed because
`end` is a Lean keyword.  `categories` is `jam_categories(guild)` and
`roles` is the `Optional` result of `jam_roles`; Python `not roles` is
true both for `None` and for the empty list.  Past the precondition the
captured snapshot is pasted, the confirmation view is presented, the
command awaits the view (`confirmed` runs `deletion_flow` on the
snapshot, `cancelled` runs nothing), and the closing message is sent.
When the precondition does not refuse and `roles` is `None`, the loop
`for role in roles` raises `TypeError` before any effect: that crash is
the `none` result. -/
def end_command (categories : List CategoryObj) (roles : Option (List RoleObj))
    (paste_url : Option String) (outcome : EndOutcome) : Option (List Effect) :=
  if categories.isEmpty &&
      (match roles with | none => true | some l => l.isEmpty) then
    some [Effect.send msgAlreadyDeleted]
  else
    match roles with
    | none => none
    | some rs =>
      some ([Effect.pasteDetails categories rs,
             Effect.presentConfirmUI
               (match paste_url with | some u => u | none => msgPasteFailed)] ++
            (match outcome with
             | .confirmed => [Effect.runDeletionFlow categories rs]
             | .cancelled => []) ++
            [Effect.send msgJamEnded])

theorem pyIsCased_pyToUpperCode (c : Nat) :
    pyIsCased (pyToUpperCode c) = pyIsCased c := by
  unfold pyToUpperCode pyIsCased
  split <;> simp only [decide_eq_decide]
  all_goals omega

theorem pyIsCased_pyToLowerCode (c : Nat) :
    pyIsCased (pyToLowerCode c) = pyIsCased c := by
  unfold pyToLowerCode pyIsCased
  split <;> simp only [decide_eq_decide]
  all_goals omega

theorem pyToUpperCode_idem (c : Nat) :
    pyToUpperCode (pyToUpperCode c) = pyToUpperCode c := by
  unfold pyToUpperCode
  split <;> (try split) <;> omega

theorem pyToLowerCode_idem (c : Nat) :
    pyToLowerCode (pyToLowerCode c) = pyToLowerCode c := by
  unfold pyToLowerCode
  split <;> (try split) <;> omega

theorem pyTitleAux_idem (l : List Nat) :
    ∀ b : Bool, pyTitleAux b (pyTitleAux b l) = pyTitleAux b l := by
  induction l with
  | nil => intro b; rfl
  | cons c rest ih =>
    intro b
    cases b <;>
      simp [pyTitleAux, pyIsCased_pyToUpperCode, pyIsCased_pyToLowerCode,
        pyToUpperCode_idem, pyToLowerCode_idem, ih]

theorem pyToUpperCode_ne_hyphen (c : Nat) (h : c ≠ 45) :
    pyToUpperCode c ≠ 45 := by
  unfold pyToUpperCode
  split <;> omega

theorem pyToLowerCode_ne_hyphen (c : Nat) (h : c ≠ 45) :
    pyToLowerCode c ≠ 45 := by
  unfold pyToLowerCode
  split <;> omega

theorem pyTitleAux_no_hyphen (l : List Nat) :
    ∀ b : Bool, (∀ c ∈ l, c ≠ 45) → ∀ c ∈ pyTitleAux b l, c ≠ 45 := by
  induction l with
  | nil => intro b _ c hc; simp [pyTitleAux] at hc
  | cons a rest ih =>
    intro b h c hc
    simp only [pyTitleAux, List.mem_cons] at hc
    rcases hc with hc | hc
    · subst hc
      have ha : a ≠ 45 := h a (List.mem_cons_self a rest)
      cases b with
      | false => simpa using pyToUpperCode_ne_hyphen a ha
      | true => simpa using pyToLowerCode_ne_hyphen a ha
    · exact ih (pyIsCased a) (fun d hd => h d (List.mem_cons_of_mem a hd)) c hc

theorem pyReplaceHyphenSpace_no_hyphen (s : List Nat) :
    ∀ c ∈ pyReplaceHyphenSpace s, c ≠ 45 := by
  intro c hc
  simp only [pyReplaceHyphenSpace, List.mem_map] at hc
  obtain ⟨a, _, ha⟩ := hc
  by_cases h45 : a = 45
  · simp [h45] at ha; omega
  · simp [h45] at ha; omega

theorem pyReplaceHyphenSpace_id_of_no_hyphen (s : List Nat)
    (h : ∀ c ∈ s, c ≠ 45) : pyReplaceHyphenSpace s = s := by
  induction s with
  | nil => rfl
  | cons a rest ih =>
    have ha : a ≠ 45 := h a (List.mem_cons_self a rest)
    simp only [pyReplaceHyphenSpace, List.map_cons, if_neg ha]
    exact congrArg _ (ih (fun d hd => h d (List.mem_cons_of_mem a hd)))

/-- Claim C9.  The channel-to-team-name transform is a pure function of the
channel slug: applying it twice yields the same string as applying it
once, it equals hyphen-to-space replacement followed by Python
title-casing, and the slug "team-rocket" maps to "Team Rocket". -/
theorem team_name_pure_idempotent :
    (∀ s : List Nat, team_name (team_name s) = team_name s) ∧
    (∀ s : List Nat, team_name s = pyTitle (pyReplaceHyphenSpace s)) ∧
    team_name (codes "team-rocket") = codes "Team Rocket" := by
  refine ⟨fun s => ?_, fun s => rfl, by decide⟩
  unfold team_name
  rw [pyReplaceHyphenSpace_id_of_no_hyphen]
  · exact pyTitleAux_idem _ false
  · exact pyTitleAux_no_hyphen _ false (pyReplaceHyphenSpace_no_hyphen s)

theorem pyToUpperCode_eq_Y (c : Nat) : pyToUpperCode c = 89 ↔ c = 89 ∨ c = 121 := by
  unfold pyToUpperCode
  split <;> omega

theorem leader_flag_iff (v : List Nat) :
    leader_flag v = true ↔ v = codes "Y" ∨ v = codes "y" := by
  have hY : codes "Y" = [89] := rfl
  have hy : codes "y" = [121] := rfl
  rw [hY, hy]
  unfold leader_flag
  rcases v with _ | ⟨c, _ | ⟨d, v⟩⟩
  · simp
  · simpa using pyToUpperCode_eq_Y c
  · simp

theorem mem_keys_appendToTeam (teams : List (String × List TeamMemberEntry))
    (name : String) (entry : TeamMemberEntry) (T : String) :
    T ∈ (appendToTeam teams name entry).map Prod.fst ↔
      T ∈ teams.map Prod.fst ∨ T = name := by
  induction teams with
  | nil => simp [appendToTeam]
  | cons p rest ih =>
    obtain ⟨k, l⟩ := p
    unfold appendToTeam
    by_cases hk : k = name
    · subst hk
      rw [if_pos rfl]
      simp only [List.map_cons, List.mem_cons]
      tauto
    · rw [if_neg hk]
      simp only [List.map_cons, List.mem_cons, ih]
      tauto

theorem mem_keys_createTeamsLoop (resolve : Nat → Option Nat)
    (rows : List RosterRow) :
    ∀ (teams : List (String × List TeamMemberEntry)) (T : String),
      T ∈ (createTeamsLoop resolve rows teams).map Prod.fst ↔
        T ∈ teams.map Prod.fst ∨
          ∃ r ∈ rows, r.row_team_name = T ∧ (resolve r.member_id).isSome := by
  induction rows with
  | nil => intro teams T; simp [createTeamsLoop]
  | cons row rest ih =>
    intro teams T
    unfold createTeamsLoop
    cases hres : resolve row.member_id with
    | none =>
      rw [ih]
      simp only [List.mem_cons]
      constructor
      · rintro (h | ⟨r, hr, hT, hs⟩)
        · exact Or.inl h
        · exact Or.inr ⟨r, Or.inr hr, hT, hs⟩
      · rintro (h | ⟨r, hr | hr, hT, hs⟩)
        · exact Or.inl h
        · subst hr; rw [hres] at hs; simp at hs
        · exact Or.inr ⟨r, hr, hT, hs⟩
    | some member =>
      rw [ih, mem_keys_appendToTeam]
      simp only [List.mem_cons]
      constructor
      · rintro ((h | h) | ⟨r, hr, hT, hs⟩)
        · exact Or.inl h
        · exact Or.inr ⟨row, Or.inl rfl, h.symm, by rw [hres]; simp⟩
        · exact Or.inr ⟨r, Or.inr hr, hT, hs⟩
      · rintro (h | ⟨r, hr | hr, hT, hs⟩)
        · exact Or.inl (Or.inl h)
        · subst hr; exact Or.inl (Or.inr hT.symm)
        · exact Or.inr ⟨r, hr, hT, hs⟩

/-- Claim C2, counterexample: a roster whose single row names team "A" with
an unresolvable member id produces an empty mapping — the team name "A"
is **not** present as a key and the team count shown to the operator is
0, not 1. -/
theorem create_teams_unresolved_team_vanishes :
    create_teams (fun _ => none) [⟨"A", 1, codes "Y"⟩] = [] ∧
    "A" ∉ (create_teams (fun _ => none) [⟨"A", 1, codes "Y"⟩]).map Prod.fst ∧
    (create_teams (fun _ => none) [⟨"A", 1, codes "Y"⟩]).length = 0 := by
  refine ⟨rfl, ?_, rfl⟩
  intro h
  simp [create_teams, createTeamsLoop] at h

/-- Claim C2, amended: a team name that appears in some roster row is
present as a key of the resulting mapping iff at least one of that team's
rows has a resolvable member id; a team all of whose rows are
unresolvable is omitted (and so does not contribute to the
"N teams will be created" count). -/
theorem create_teams_key_iff_resolvable (resolve : Nat → Option Nat)
    (rows : List RosterRow) (T : String) :
    T ∈ (create_teams resolve rows).map Prod.fst ↔
      ∃ r ∈ rows, r.row_team_name = T ∧ (resolve r.member_id).isSome := by
  unfold create_teams
  rw [mem_keys_createTeamsLoop]
  simp

/-- Claim C5: the example roster (team A: members 1 and 2 with member 1
flagged "y", team B: member 3, and an unresolvable row for team C) parses
to exactly the two keys "A" and "B", with A holding two entries of which
exactly the first is a leader, B holding one entry, no key for "C", and
the leader flag of a row is true iff its raw value case-insensitively
equals "Y". -/
theorem create_teams_example :
    create_teams exampleResolve exampleRows =
      [("A", [⟨101, true⟩, ⟨102, false⟩]), ("B", [⟨103, false⟩])] ∧
    (create_teams exampleResolve exampleRows).length = 2 ∧
    "C" ∉ (create_teams exampleResolve exampleRows).map Prod.fst ∧
    (∀ v : List Nat, leader_flag v = true ↔ v = codes "Y" ∨ v = codes "y") := by
  refine ⟨by decide, by decide, by decide, leader_flag_iff⟩

/-- Claim C4: on a pending confirmation view, the first accepted confirm
interaction invokes the registered callback exactly once (the view ends
stopped with both buttons disabled), and every interaction dispatched
after that terminal transition is a no-op: it changes no state and
invokes no callback. -/
theorem confirm_invokes_callback_once (author : Nat) (s : ViewState)
    (hstop : s.stopped = false) (hcb : s.callback_calls = 0) :
    (onInteraction author s author ViewBtn.confirm).callback_calls = 1 ∧
    (onInteraction author s author ViewBtn.confirm).stopped = true ∧
    (onInteraction author s author ViewBtn.confirm).confirm_disabled = true ∧
    (onInteraction author s author ViewBtn.confirm).cancel_disabled = true ∧
    ∀ (u : Nat) (b : ViewBtn),
      onInteraction author (onInteraction author s author ViewBtn.confirm) u b =
        onInteraction author s author ViewBtn.confirm := by
  have h1 : onInteraction author s author ViewBtn.confirm = confirmPressed s := by
    unfold onInteraction
    simp [hstop]
  rw [h1]
  refine ⟨by simp [confirmPressed, hcb], rfl, rfl, rfl, ?_⟩
  intro u b
  unfold onInteraction
  simp [confirmPressed]

/-- Witness for C4 at the freshly created view. -/
theorem confirm_invokes_callback_once_witness :
    (onInteraction 1 initialViewState 1 ViewBtn.confirm).callback_calls = 1 ∧
    onInteraction 1 (onInteraction 1 initialViewState 1 ViewBtn.confirm) 2
        ViewBtn.cancel =
      onInteraction 1 initialViewState 1 ViewBtn.confirm :=
  ⟨(confirm_invokes_callback_once 1 initialViewState rfl rfl).1,
   (confirm_invokes_callback_once 1 initialViewState rfl rfl).2.2.2.2 2
     ViewBtn.cancel⟩

/-- Claim C7: an interaction on a pending confirmation view from any user
other than the original author is rejected with the visible notice, no
handler or callback runs, and the state is otherwise unchanged: still not
stopped, buttons exactly as before, callback count unchanged. -/
theorem foreign_interaction_rejected (author : Nat) (s : ViewState) (u : Nat)
    (b : ViewBtn) (hstop : s.stopped = false) (hu : u ≠ author) :
    onInteraction author s u b =
      { s with responses := s.responses ++ [rejectionNotice] } ∧
    (onInteraction author s u b).callback_calls = s.callback_calls ∧
    (onInteraction author s u b).stopped = false ∧
    (onInteraction author s u b).confirm_disabled = s.confirm_disabled ∧
    (onInteraction author s u b).cancel_disabled = s.cancel_disabled := by
  have h1 : onInteraction author s u b =
      { s with responses := s.responses ++ [rejectionNotice] } := by
    unfold onInteraction
    simp [hstop, hu]
  exact ⟨h1, by rw [h1], by rw [h1]; exact hstop, by rw [h1], by rw [h1]⟩

/-- Witness for C7 at the freshly created view and an unauthorized
user. -/
theorem foreign_interaction_rejected_witness :
    onInteraction 1 initialViewState 2 ViewBtn.confirm =
      { initialViewState with
          responses := initialViewState.responses ++ [rejectionNotice] } ∧
    (onInteraction 1 initialViewState 2 ViewBtn.confirm).callback_calls =
      initialViewState.callback_calls ∧
    (onInteraction 1 initialViewState 2 ViewBtn.confirm).stopped = false ∧
    (onInteraction 1 initialViewState 2 ViewBtn.confirm).confirm_disabled =
      initialViewState.confirm_disabled ∧
    (onInteraction 1 initialViewState 2 ViewBtn.confirm).cancel_disabled =
      initialViewState.cancel_disabled :=
  foreign_interaction_rejected 1 initialViewState 2 ViewBtn.confirm rfl
    (by decide)

/-- Claim C1: whenever the target-team lookup fails (404 or any other
status), the current-team lookup fails, or the membership deletion fails
(404, 400 or any other status), the move operation produces only a report
(its first effect is a message and no effect is a mutation): the member's
chat-platform roles and their API membership on the current team are
unchanged, and no role is touched before the system-of-record deletion
has succeeded. -/
theorem move_aborts_before_role_mutation (member : Nat) (new_team_name : String)
    (find_res : ApiResult TeamRec) (current_res : ApiResult CurrentTeamResp)
    (delete_res : ApiResult Unit) (post_res : ApiResult Unit)
    (h : find_res.isErr = true ∨ current_res.isErr = true ∨
      delete_res.isErr = true) :
    onlyObservations
        (move member new_team_name find_res current_res delete_res post_res) =
      true ∧
    startsWithSend
        (move member new_team_name find_res current_res delete_res post_res) =
      true := by
  cases find_res with
  | err s =>
    simp only [move]
    by_cases h4 : s = 404
    · subst h4
      rw [if_pos rfl]
      exact ⟨rfl, rfl⟩
    · rw [if_neg h4]
      exact ⟨rfl, rfl⟩
  | ok tgt =>
    cases current_res with
    | err s =>
      simp only [move]
      by_cases h4 : s = 404
      · subst h4
        rw [if_pos rfl]
        exact ⟨rfl, rfl⟩
      · rw [if_neg h4]
        exact ⟨rfl, rfl⟩
    | ok cur =>
      cases delete_res with
      | err s =>
        simp only [move]
        by_cases h4 : s = 404
        · subst h4
          rw [if_pos rfl]
          exact ⟨rfl, rfl⟩
        · by_cases h0 : s = 400
          · subst h0
            rw [if_neg h4, if_pos rfl]
            exact ⟨rfl, rfl⟩
          · rw [if_neg h4, if_neg h0]
            exact ⟨rfl, rfl⟩
      | ok u =>
        rcases h with h | h | h <;> simp [ApiResult.isErr] at h

/-- Witness for C1: target-team lookup answered 404. -/
theorem move_aborts_before_role_mutation_witness :
    onlyObservations
        (move 7 "Bravo" (ApiResult.err 404)
          (ApiResult.ok ⟨⟨1, "Alpha", 10, [⟨7, true⟩]⟩, 7⟩)
          (ApiResult.ok ()) (ApiResult.ok ())) = true ∧
    startsWithSend
        (move 7 "Bravo" (ApiResult.err 404)
          (ApiResult.ok ⟨⟨1, "Alpha", 10, [⟨7, true⟩]⟩, 7⟩)
          (ApiResult.ok ()) (ApiResult.ok ())) = true :=
  move_aborts_before_role_mutation 7 "Bravo" (ApiResult.err 404)
    (ApiResult.ok ⟨⟨1, "Alpha", 10, [⟨7, true⟩]⟩, 7⟩)
    (ApiResult.ok ()) (ApiResult.ok ()) (Or.inl rfl)

theorem any_leader_scan (users : List TeamUser) (member : Nat) (L : Bool)
    (hall : ∀ u ∈ users, u.user_id = member → u.is_leader = L)
    (hex : ∃ u ∈ users, u.user_id = member) :
    users.any (fun memb => memb.user_id == member && memb.is_leader) = L := by
  cases L with
  | true =>
    obtain ⟨u, hu, hid⟩ := hex
    refine List.any_eq_true.mpr ⟨u, hu, ?_⟩
    simp [hid, hall u hu hid]
  | false =>
    rw [List.any_eq_false]
    intro u hu
    by_cases hid : u.user_id = member
    · simp [hid, hall u hu hid]
    · simp [hid]

/-- Claim C6: on a fully successful move, the leader flag inserted into
the target team's membership record equals the leader flag the member
had in the former team's membership list, and the full effect sequence
is: API deletion, former-team role removal, API insertion carrying the
flag, target-team role grant, success report naming both teams. -/
theorem move_preserves_leader_flag (member : Nat) (new_team_name : String)
    (tgt : TeamRec) (cur : CurrentTeamResp) (L : Bool)
    (hall : ∀ u ∈ cur.team.users, u.user_id = member → u.is_leader = L)
    (hex : ∃ u ∈ cur.team.users, u.user_id = member) :
    move member new_team_name (ApiResult.ok tgt) (ApiResult.ok cur)
        (ApiResult.ok ()) (ApiResult.ok ()) =
      [Effect.apiDeleteMembership cur.team.id cur.user_id,
       Effect.removeRole member cur.team.discord_role_id,
       Effect.apiPostMembership tgt.id member L,
       Effect.addRole member tgt.discord_role_id,
       Effect.send (msgMoveSuccess (mention member) cur.team.name tgt.name)] := by
  have hscan := any_leader_scan cur.team.users member L hall hex
  simp only [move, movePostPart, hscan]

/-- Witness for C6: member 7 is a leader on Alpha and is moved to Bravo
as a leader. -/
theorem move_preserves_leader_flag_witness :
    move 7 "Bravo" (ApiResult.ok ⟨2, "Bravo", 20, []⟩)
        (ApiResult.ok ⟨⟨1, "Alpha", 10, [⟨7, true⟩]⟩, 7⟩)
        (ApiResult.ok ()) (ApiResult.ok ()) =
      [Effect.apiDeleteMembership 1 7, Effect.removeRole 7 10,
       Effect.apiPostMembership 2 7 true, Effect.addRole 7 20,
       Effect.send (msgMoveSuccess (mention 7) "Alpha" "Bravo")] :=
  move_preserves_leader_flag 7 "Bravo" ⟨2, "Bravo", 20, []⟩
    ⟨⟨1, "Alpha", 10, [⟨7, true⟩]⟩, 7⟩ true (by decide) (by decide)

/-- Claim C3, counterexample: the membership deletion answers 404 while
the member holds the team role and the team-leader role; the remove
command only sends the not-found report — it attempts no role removal,
refuting "role removal is still attempted regardless of the deletion
failure". -/
theorem remove_404_counterexample :
    remove 5 [⟨9, "Leaders"⟩] "Leaders"
        (ApiResult.ok ⟨⟨1, "Alpha", 10, [⟨5, true⟩]⟩, 5⟩)
        (ApiResult.err 404) =
      [Effect.send msgTeamOrUserNotFound] ∧
    onlyObservations
        (remove 5 [⟨9, "Leaders"⟩] "Leaders"
          (ApiResult.ok ⟨⟨1, "Alpha", 10, [⟨5, true⟩]⟩, 5⟩)
          (ApiResult.err 404)) = true :=
  ⟨rfl, rfl⟩

/-- Claim C3, amended: when the management-API membership deletion
returns 404, the remove operation reports "Team or user could not be
found!" and aborts; chat-platform role removal (team role and
team-leader role) is NOT attempted. -/
theorem remove_404_reports_and_aborts (member : Nat)
    (member_roles : List RoleObj) (team_leader_role_name : String)
    (cur : CurrentTeamResp) :
    remove member member_roles team_leader_role_name (ApiResult.ok cur)
        (ApiResult.err 404) =
      [Effect.send msgTeamOrUserNotFound] := by
  simp [remove]

/-- Claim C8: when the guild has zero jam categories and the jam-roles
lookup succeeds with zero roles, the end command refuses up front with
the "already been deleted" message as its only effect: no paste, no
confirmation view, no deletion. -/
theorem end_refuses_when_nothing_to_delete (jam_category_name : String)
    (guild_categories : List CategoryObj) (resp : ApiResult (List TeamListing))
    (get_role : Nat → Option RoleObj) (paste_url : Option String)
    (outcome : EndOutcome)
    (hcats : jam_categories jam_category_name guild_categories = [])
    (hroles : jam_roles resp get_role = some []) :
    end_command (jam_categories jam_category_name guild_categories)
        (jam_roles resp get_role) paste_url outcome =
      some [Effect.send msgAlreadyDeleted] := by
  rw [hcats, hroles]
  rfl

/-- Witness for C8: a guild whose only category is not a jam category and
whose only current-jam team has an unresolvable role id. -/
theorem end_refuses_when_nothing_to_delete_witness :
    end_command (jam_categories "Code Jam" [⟨1, "general", []⟩])
        (jam_roles (ApiResult.ok [⟨99⟩]) (fun _ => none)) none
        EndOutcome.confirmed =
      some [Effect.send msgAlreadyDeleted] :=
  end_refuses_when_nothing_to_delete "Code Jam" [⟨1, "general", []⟩]
    (ApiResult.ok [⟨99⟩]) (fun _ => none) none EndOutcome.confirmed
    (by decide) rfl

/-- Claim C10: whenever the end command passes the nothing-to-delete
precondition and its confirmation view terminates — confirmed or
cancelled — the command completes and its last effect is sending
"Code Jam has officially ended! :sunrise:"; the announcement is not
conditioned on confirmation. -/
theorem end_announces_after_view (categories : List CategoryObj)
    (rs : List RoleObj) (paste_url : Option String) (outcome : EndOutcome)
    (h : (categories.isEmpty && rs.isEmpty) = false) :
    (end_command categories (some rs) paste_url outcome).isSome = true ∧
    ((end_command categories (some rs) paste_url outcome).getD []).getLast? =
      some (Effect.send msgJamEnded) := by
  cases outcome <;> simp [end_command, h]

/-- Witness for C10: one jam category remains and the operator presses
Cancel; the closing announcement is still the last effect. -/
theorem end_announces_after_view_witness :
    (end_command [⟨1, "Code Jam", [5]⟩] (some []) none
        EndOutcome.cancelled).isSome = true ∧
    ((end_command [⟨1, "Code Jam", [5]⟩] (some []) none
        EndOutcome.cancelled).getD []).getLast? =
      some (Effect.send msgJamEnded) :=
  end_announces_after_view [⟨1, "Code Jam", [5]⟩] [] none
    EndOutcome.cancelled rfl
